import Mathlib

/-!
Verification development for the market-breadth dashboard (`app.py`).

Modelling conventions (shallow embedding of the Python/pandas source):

* Calendar dates are embedded as `Nat` (days in chronological order).  The
  source keeps both a `date` column (a `datetime.date`) and a derived
  `date_str` ISO string whose lexicographic order coincides with the calendar
  order, so a single `Nat` field represents both; pandas `groupby` emits its
  keys in ascending sorted order, which for `date_str` is chronological.
* `pct_chg` is a float column in the source; it is embedded as `ℚ`.  The
  fixed thresholds `9.8` / `-9.8` of `app.py` lines 191-192 are embedded as
  `mkRat 49 5` and `-mkRat 49 5`.
* `pd.Categorical(df['group'], categories=ORDER_LIST, ordered=True)`
  (line 24) maps a value outside the category list to the missing value
  `NaN` without raising; this is embedded as `Option Bucket` with `none`
  for the coerced missing value.
* Boolean index-membership columns are embedded as an association list on
  each row together with the table's column-name list; subscripting a
  DataFrame with an absent column name raises `KeyError`, embedded as an
  explicit `keyError` result constructor.
* `load_data` (lines 19-27) guards only `FileNotFoundError`; any other
  exception raised while reading or parsing propagates and aborts the
  script.  The file system is abstracted as a three-state input.
* pandas `DataFrameGroupBy.apply` over an *empty* selection calls the
  lambda zero times and returns an empty frame carrying the *input's*
  columns, so `daily_metrics['up']` at line 104 raises `KeyError` when the
  date-range selection is empty; the `daily_metrics` embedding returns a
  `keyError` result in exactly that case.
* `Series.value_counts` lists the observed keys sorted by descending count;
  the order is irrelevant here because line 184 immediately reindexes by
  the fixed bucket list, looking each key up once, so the embedding keeps
  the observed keys in first-occurrence order.
-/

/-- Bucket labels: the fixed ordered 8-label domain of `ORDER_LIST`
(`app.py` line 15), highest band first. -/
inductive Bucket where
  | gt7      -- ">7%"
  | r3to7    -- "3~7%"
  | r1to3    -- "1~3%"
  | r0to1    -- "0~1%"
  | rm1to0   -- "-1~0%"
  | rm3tom1  -- "-3~-1%"
  | rm7tom3  -- "-7~-3%"
  | ltm7     -- "<-7%"
deriving DecidableEq

/-- ORDER_LIST (`app.py` line 15): the fixed display/sort order of buckets. -/
def ORDER_LIST : List Bucket :=
  [.gt7, .r3to7, .r1to3, .r0to1, .rm1to0, .rm3tom1, .rm7tom3, .ltm7]

/-- LABELS: the 8 bucket label strings, in `ORDER_LIST` order. -/
def LABELS : List String :=
  [">7%", "3~7%", "1~3%", "0~1%", "-1~0%", "-3~-1%", "-7~-3%", "<-7%"]

/-- toBucket embeds `pd.Categorical(..., categories=ORDER_LIST)` applied to
one cell (`app.py` line 24): a value in the category list maps to its
bucket, any other value is silently coerced to the missing value `none`
(pandas `NaN`); nothing is raised and no row is rejected. -/
def toBucket (s : String) : Option Bucket :=
  if s = ">7%" then some .gt7
  else if s = "3~7%" then some .r3to7
  else if s = "1~3%" then some .r1to3
  else if s = "0~1%" then some .r0to1
  else if s = "-1~0%" then some .rm1to0
  else if s = "-3~-1%" then some .rm3tom1
  else if s = "-7~-3%" then some .rm7tom3
  else if s = "<-7%" then some .ltm7
  else none

/-- RawRow: one CSV record before loading: `date`, `pct_chg`, the raw
`group` string, and the values of the boolean index-membership columns. -/
structure RawRow where
  date : Nat
  pct_chg : ℚ
  group : String
  flags : List (String × Bool)
deriving DecidableEq

/-- Row: one record of the loaded table (`raw_df`): the `group` string has
been assigned into the ordered categorical domain (`none` = pandas NaN for
an out-of-domain value). -/
structure Row where
  date : Nat
  pct_chg : ℚ
  group : Option Bucket
  flags : List (String × Bool)
deriving DecidableEq

/-- loadRow: the per-row effect of `load_data` lines 22-24 (date parsing is
the identity in this embedding; `group` goes through the categorical). -/
def loadRow (r : RawRow) : Row :=
  ⟨r.date, r.pct_chg, toBucket r.group, r.flags⟩

/-- Table: the loaded DataFrame: its column-name list (used to decide
whether subscripting raises `KeyError`) and its rows. -/
structure Table where
  cols : List String
  rows : List Row
deriving DecidableEq

/-- loadTable: the successful branch of `load_data` (lines 21-25). -/
def loadTable (cols : List String) (raw : List RawRow) : Table :=
  ⟨cols, raw.map loadRow⟩

/-- FileState abstracts the state of `market_sentiment_indices.csv`:
missing, present but unparseable (bad dates / wrong schema), or good. -/
inductive FileState where
  | missing
  | malformed
  | good (cols : List String) (raw : List RawRow)
deriving DecidableEq

/-- LoadResult: what `load_data()` (lines 19-27) produces: `nullResult` is
the `return None` of the `except FileNotFoundError` arm, `parseExn` an
exception that is not caught (the `try` guards only `FileNotFoundError`),
and `table` the successfully loaded frame. -/
inductive LoadResult where
  | nullResult
  | parseExn
  | table (t : Table)
deriving DecidableEq

/-- load_data (`app.py` lines 19-27): only `FileNotFoundError` is caught
and turned into `None`; a present-but-malformed file makes `read_csv` /
`to_datetime` raise an exception that propagates out of `load_data`. -/
def load_data : FileState → LoadResult
  | .missing => .nullResult
  | .malformed => .parseExn
  | .good cols raw => .table (loadTable cols raw)

/-- SessionOutcome: how the script run ends: the defined halt path of
lines 34-36 (`st.error` + `st.stop`), an uncaught exception aborting the
script, or a normal render. -/
inductive SessionOutcome where
  | haltWithMessage
  | crashUncaught
  | renders
deriving DecidableEq

/-- sessionStart (`app.py` lines 29-36): `raw_df is None` takes the
error-and-stop path; an exception from `load_data` is never caught by the
script; otherwise rendering proceeds. -/
def sessionStart (fs : FileState) : SessionOutcome :=
  match load_data fs with
  | .nullResult => .haltWithMessage
  | .parseExn => .crashUncaught
  | .table _ => .renders

/-- filtered_raw (`app.py` lines 46-47): the rows of the loaded table whose
date lies in the inclusive trend range `[s, e]`. -/
def filtered_raw (t : Table) (s e : Nat) : List Row :=
  t.rows.filter (fun r => decide (s ≤ r.date) && decide (r.date ≤ e))

/-- trendDates: the ascending list of distinct dates observed in
`filtered_raw`, i.e. the keys pandas `groupby('date_str')` emits (sorted
ascending, which for ISO date strings is chronological). -/
def trendDates (t : Table) (s e : Nat) : List Nat :=
  (List.range (e + 1)).filter (fun d => (filtered_raw t s e).any (fun r => decide (r.date = d)))

/-- rowsOnDate: the sub-frame of one groupby group. -/
def rowsOnDate (rows : List Row) (d : Nat) : List Row :=
  rows.filter (fun r => decide (r.date = d))

/-- daily_counts (`app.py` lines 53-57): size of each (date, bucket) group
with `observed=False`, so every observed date is crossed with all 8
categories (zero sizes included), then sorted by date and by the fixed
bucket order.  Rows whose `group` is the missing value belong to no
category group and are dropped by pandas (`dropna=True`). -/
def daily_counts (t : Table) (s e : Nat) : List (Nat × Bucket × Nat) :=
  ((trendDates t s e).map (fun d =>
    ORDER_LIST.map (fun b =>
      (d, b, (rowsOnDate (filtered_raw t s e) d).countP (fun r => decide (r.group = some b)))))).flatten

/-- medianQ: the pandas `Series.median`: midpoint of the sorted values for
odd length, mean of the two middle values for even length.  The empty case
(pandas `NaN`) is unreachable here because every groupby group is
nonempty; it is given the junk value `0`. -/
def medianQ (l : List ℚ) : ℚ :=
  let s := List.insertionSort (fun a b : ℚ => a ≤ b) l
  if s.length % 2 = 1 then s.getD (s.length / 2) 0
  else (s.getD (s.length / 2 - 1) 0 + s.getD (s.length / 2) 0) / 2

/-- MetricRec: the per-date record built by the groupby lambda of
`app.py` lines 95-101 (`median_pct`, `up`, `down`), keyed by date. -/
structure MetricRec where
  date_str : Nat
  median_pct : ℚ
  up : Nat
  down : Nat
deriving DecidableEq

/-- applyRecs (`app.py` lines 95-101): one `MetricRec` per observed date of
the filtered range, in ascending date order. -/
def applyRecs (t : Table) (s e : Nat) : List MetricRec :=
  (trendDates t s e).map (fun d =>
    ⟨d,
     medianQ ((rowsOnDate (filtered_raw t s e) d).map (·.pct_chg)),
     (rowsOnDate (filtered_raw t s e) d).countP (fun r => decide ((0:ℚ) < r.pct_chg)),
     (rowsOnDate (filtered_raw t s e) d).countP (fun r => decide (r.pct_chg < (0:ℚ)))⟩)

/-- cumsumAux: pandas `Series.cumsum` with an explicit accumulator. -/
def cumsumAux (acc : Int) : List Int → List Int
  | [] => []
  | x :: xs => (acc + x) :: cumsumAux (acc + x) xs

/-- cumsum: pandas `Series.cumsum` (`app.py` line 105). -/
def cumsum (l : List Int) : List Int :=
  cumsumAux 0 l

/-- DailyMetrics: the columns of the `daily_metrics` frame after the
derived columns of `app.py` lines 104-107 have been added. -/
structure DailyMetrics where
  date_str : List Nat
  median_pct : List ℚ
  up : List Nat
  down : List Nat
  net : List Int
  cum_net : List Int
  median_color : List String
deriving DecidableEq

/-- MetricsResult: the outcome of building `daily_metrics`: either the
frame, or an uncaught `KeyError` raised by a column subscript. -/
inductive MetricsResult where
  | ok (m : DailyMetrics)
  | keyError (col : String)
deriving DecidableEq

/-- UP_COL names the column whose subscript raises when absent. -/
def UP_COL : String := "up"

/-- daily_metrics (`app.py` lines 95-107).  When the range selection is
empty the groupby has zero groups, so pandas `apply` never calls the
lambda and returns an empty frame carrying the *input's* columns; the
subscript `daily_metrics['up']` at line 104 then raises `KeyError`.
Otherwise the `net`, `cum_net` and `median_color` columns are derived from
the per-date records. -/
def daily_metrics (t : Table) (s e : Nat) : MetricsResult :=
  if (applyRecs t s e).isEmpty then .keyError UP_COL
  else
    .ok ⟨(applyRecs t s e).map (·.date_str),
         (applyRecs t s e).map (·.median_pct),
         (applyRecs t s e).map (·.up),
         (applyRecs t s e).map (·.down),
         (applyRecs t s e).map (fun r => (r.up : Int) - (r.down : Int)),
         cumsum ((applyRecs t s e).map (fun r => (r.up : Int) - (r.down : Int))),
         (applyRecs t s e).map (fun r => if 0 < r.median_pct then "#FF4D4D" else "#00B300")⟩

/-- ALL_OPTION: the "All stocks" entry of the index selector
(`app.py` line 172). -/
def ALL_OPTION : String := "全A股 (All)"

/-- HS300: one of the fixed index names of `app.py` line 172. -/
def HS300 : String := "沪深300"

/-- day_rows (`app.py` line 176): `filtered_raw[filtered_raw['date'] ==
selected_date]` — note the day selection is carved out of the
*range-filtered* table, not out of `raw_df`. -/
def day_rows (t : Table) (s e D : Nat) : List Row :=
  (filtered_raw t s e).filter (fun r => decide (r.date = D))

/-- RowsResult: a row selection, or an uncaught `KeyError` from
subscripting an absent column. -/
inductive RowsResult where
  | ok (rows : List Row)
  | keyError (col : String)
deriving DecidableEq

/-- day_raw (`app.py` lines 176-181): the single-day row set, restricted by
the chosen index column when one is selected.  Subscripting with a name
that is not a column of the frame raises `KeyError`. -/
def day_raw (t : Table) (s e D : Nat) (idx : String) : RowsResult :=
  if idx = ALL_OPTION then .ok (day_rows t s e D)
  else if idx ∈ t.cols then
    .ok ((day_rows t s e D).filter (fun r => ((r.flags.lookup idx).getD false) == true))
  else .keyError idx

/-- observedBuckets: the distinct bucket values observed in a row set;
missing (`none`) groups are dropped, as by `value_counts` with its default
`dropna=True`. -/
def observedBuckets (rows : List Row) : List Bucket :=
  (rows.filterMap (·.group)).dedup

/-- value_counts (`app.py` line 184, before the reindex): count per
observed bucket.  pandas lists these sorted by descending count; the order
is immaterial because the result is immediately reindexed by key. -/
def value_counts (rows : List Row) : List (Bucket × Nat) :=
  (observedBuckets rows).map (fun b => (b, rows.countP (fun r => decide (r.group = some b))))

/-- day_counts_detail (`app.py` lines 184-185):
`value_counts().reindex(ORDER_LIST, fill_value=0)` — one entry per fixed
bucket label, in fixed order, count 0 when the bucket was not observed. -/
def day_counts_detail (rows : List Row) : List (Bucket × Nat) :=
  ORDER_LIST.map (fun b => (b, ((value_counts rows).lookup b).getD 0))

/-- total_up (`app.py` line 189). -/
def total_up (rows : List Row) : Nat :=
  rows.countP (fun r => decide ((0:ℚ) < r.pct_chg))

/-- total_down (`app.py` line 190). -/
def total_down (rows : List Row) : Nat :=
  rows.countP (fun r => decide (r.pct_chg < (0:ℚ)))

/-- limit_up_count (`app.py` line 191): strictly greater than 9.8. -/
def limit_up_count (rows : List Row) : Nat :=
  rows.countP (fun r => decide (mkRat 49 5 < r.pct_chg))

/-- limit_down_count (`app.py` line 192): strictly less than -9.8. -/
def limit_down_count (rows : List Row) : Nat :=
  rows.countP (fun r => decide (r.pct_chg < -mkRat 49 5))

/-- DayRender: what the single-day section can show: a bar chart (bucket
counts plus the four scalar statistics of lines 189-192), or a warning.
The warning constructor is part of the output vocabulary (streamlit can
render one); the source never constructs it. -/
inductive DayRender where
  | chart (counts : List (Bucket × Nat)) (up down limitUp limitDown : Nat)
  | warning (msg : String)
deriving DecidableEq

/-- renderDay (`app.py` lines 184-219): the day section unconditionally
builds the count table and statistics from whatever row set it is handed —
there is no emptiness check and no warning branch anywhere in the file. -/
def renderDay (rows : List Row) : DayRender :=
  .chart (day_counts_detail rows) (total_up rows) (total_down rows)
    (limit_up_count rows) (limit_down_count rows)

/-- DayResult: the single-day section either renders, or dies on an
uncaught `KeyError`. -/
inductive DayResult where
  | ok (r : DayRender)
  | keyError (col : String)
deriving DecidableEq

/-- daySection (`app.py` lines 176-219): select the day's rows (possibly
restricted by index membership) and render. -/
def daySection (t : Table) (s e D : Nat) (idx : String) : DayResult :=
  match day_raw t s e D idx with
  | .ok rows => .ok (renderDay rows)
  | .keyError c => .keyError c

/-- specRunningTotals states the spec's wording of `cum_net`: the i-th
entry is the sum of the first `i + 1` entries of the input — a prefix sum
in ascending order starting from zero.  (Written from the spec, to be
compared with the source's `cumsum`.) -/
def specRunningTotals (l : List Int) : List Int :=
  (List.range l.length).map (fun i => (l.take (i + 1)).sum)

/-- rowA0, a plain valid row on date 0. -/
def rowA0 : Row := ⟨0, 1, some .r0to1, []⟩

/-- rowA1, a plain valid row on date 1. -/
def rowA1 : Row := ⟨1, 1, some .r0to1, []⟩

/-- tAB: a concrete two-row table (dates 0 and 1) with no index-membership
columns, used to evaluate the embedding at concrete inputs. -/
def tAB : Table := ⟨["date", "pct_chg", "group"], [rowA0, rowA1]⟩

/-- rBad: a raw CSV record whose `group` value is outside the 8-label
domain. -/
def rBad : RawRow := ⟨0, 2, "N/A", []⟩

/-- mW: the daily-metrics frame of `tAB` over the range `[0, 1]`, written
out concretely. -/
def mW : DailyMetrics :=
  ⟨[0, 1], [1, 1], [1, 1], [0, 0], [1, 1], [1, 2], ["#FF4D4D", "#FF4D4D"]⟩

/-- Lookup of a key in a key-tagged map hits that key's entry. -/
theorem lookup_table_map (f : Bucket → Nat) :
    ∀ (l : List Bucket) (b : Bucket),
      (l.map (fun x => (x, f x))).lookup b = if b ∈ l then some (f b) else none := by
  intro l
  induction l with
  | nil =>
    intro b
    simp [List.lookup]
  | cons x xs ih =>
    intro b
    rw [List.map_cons]
    by_cases h : b = x
    · subst h
      simp [List.lookup]
    · have hbx : (b == x) = false := by simp [h]
      simp [List.lookup, hbx, ih, h]

/-- Unobserved buckets have zero rows. -/
theorem countP_group_eq_zero (rows : List Row) (b : Bucket) (h : b ∉ observedBuckets rows) :
    rows.countP (fun r => decide (r.group = some b)) = 0 := by
  refine List.countP_eq_zero.mpr ?_
  intro r hr
  simp only [decide_eq_true_eq]
  intro hg
  apply h
  unfold observedBuckets
  rw [List.mem_dedup]
  exact List.mem_filterMap.mpr ⟨r, hr, hg⟩

/-- Rows whose group is the missing value are invisible to `value_counts`. -/
theorem value_counts_cons_of_group_none (r : Row) (rows : List Row) (h : r.group = none) :
    value_counts (r :: rows) = value_counts rows := by
  unfold value_counts observedBuckets
  rw [List.filterMap_cons_none (by simpa using h)]
  refine List.map_congr_left ?_
  intro b _
  rw [List.countP_cons]
  simp [h]

/-- Rows whose group is the missing value are invisible to the reindexed
single-day count table. -/
theorem day_counts_detail_cons_of_group_none (r : Row) (rows : List Row) (h : r.group = none) :
    day_counts_detail (r :: rows) = day_counts_detail rows := by
  unfold day_counts_detail
  rw [value_counts_cons_of_group_none r rows h]

/-- Strings outside the 8-label list are coerced to the missing value. -/
theorem toBucket_eq_none_of_not_mem (s : String) (h : s ∉ LABELS) : toBucket s = none := by
  simp only [LABELS, List.mem_cons, List.not_mem_nil, or_false, not_or] at h
  obtain ⟨h1, h2, h3, h4, h5, h6, h7, h8⟩ := h
  simp [toBucket, h1, h2, h3, h4, h5, h6, h7, h8]

/-- Empty input gives an empty running-total list. -/
theorem specRunningTotals_nil : specRunningTotals [] = [] := rfl

/-- Cons law of the spec's running totals. -/
theorem specRunningTotals_cons (x : Int) (xs : List Int) :
    specRunningTotals (x :: xs) = x :: (specRunningTotals xs).map (fun t => x + t) := by
  unfold specRunningTotals
  rw [List.length_cons, List.range_succ_eq_map, List.map_cons]
  congr 1
  · simp
  · rw [List.map_map, List.map_map]
    refine List.map_congr_left ?_
    intro i _
    simp [Function.comp]

/-- cumsumAux shifts every entry of the running totals by its accumulator. -/
theorem cumsumAux_eq (l : List Int) :
    ∀ acc : Int, cumsumAux acc l = (specRunningTotals l).map (fun t => acc + t) := by
  induction l with
  | nil =>
    intro acc
    simp [cumsumAux, specRunningTotals]
  | cons x xs ih =>
    intro acc
    rw [specRunningTotals_cons]
    simp only [cumsumAux, List.map_cons, List.map_map]
    congr 1
    rw [ih (acc + x)]
    refine List.map_congr_left ?_
    intro t _
    simp [Function.comp, add_assoc]

/-- cumsum computes exactly the spec's running totals. -/
theorem cumsum_eq_specRunningTotals (l : List Int) : cumsum l = specRunningTotals l := by
  rw [cumsum, cumsumAux_eq l 0]
  simp

/-- cumsum starts at the first entry itself. -/
theorem cumsum_head (l : List Int) : (cumsum l).head? = l.head? := by
  cases l with
  | nil => rfl
  | cons x xs => simp [cumsum, cumsumAux]

/-- C1 counterexample: on the concrete table `tAB`, date 0 is selectable
but its single-day result differs between the trend range `[0, 1]` (which
contains it) and `[1, 1]` (which does not): the claim's "identical for
every pair of trend ranges" is false. -/
theorem c1_single_day_differs_across_ranges :
    daySection tAB 0 1 0 ALL_OPTION ≠ daySection tAB 1 1 0 ALL_OPTION := by decide

/-- C1 (amended): the single-day row set is carved out of the
range-filtered table (`app.py` line 176), so it equals the full table's
rows for the selected date exactly when that date lies inside the trend
range, and is empty otherwise; results therefore agree only across trend
ranges that both contain the selected date. -/
theorem c1_day_rows_eq_full_day_iff_in_range (t : Table) (s e D : Nat) :
    day_rows t s e D =
      if s ≤ D ∧ D ≤ e then t.rows.filter (fun r => decide (r.date = D)) else [] := by
  unfold day_rows filtered_raw
  rw [List.filter_filter]
  by_cases h : s ≤ D ∧ D ≤ e
  · rw [if_pos h]
    refine List.filter_congr ?_
    intro r _
    by_cases hd : r.date = D
    · simp [hd, h.1, h.2]
    · simp [hd]
  · rw [if_neg h]
    rw [List.filter_eq_nil_iff]
    intro r _ hcon
    simp only [Bool.and_eq_true, decide_eq_true_eq] at hcon
    exact h ⟨hcon.1 ▸ hcon.2.1, hcon.1 ▸ hcon.2.2⟩

/-- C2 counterexample: on the concrete table `tAB`, which has no
index-membership columns, selecting the index filter `沪深300` makes the
day section die on a `KeyError` instead of producing the "All stocks"
result: the claimed fallback-with-warning does not exist. -/
theorem c2_missing_index_column_fails :
    daySection tAB 0 1 0 HS300 = DayResult.keyError HS300 ∧
      DayResult.keyError HS300 ≠ daySection tAB 0 1 0 ALL_OPTION := by decide

/-- C2 (amended): when the selected index filter names no column of the
loaded table, the subscript `day_raw[selected_index]` raises an uncaught
`KeyError` (`app.py` line 181); there is no fallback to the unfiltered set
and no warning. -/
theorem c2_missing_index_column_key_error (t : Table) (s e D : Nat) (idx : String)
    (h1 : idx ≠ ALL_OPTION) (h2 : idx ∉ t.cols) :
    daySection t s e D idx = DayResult.keyError idx := by
  unfold daySection day_raw
  rw [if_neg h1, if_neg h2]

/-- C2 witness: the amended theorem applied to the concrete table `tAB`
and filter `沪深300`. -/
theorem c2_missing_index_column_key_error_witness :
    daySection tAB 0 1 0 HS300 = DayResult.keyError HS300 :=
  c2_missing_index_column_key_error tAB 0 1 0 HS300 (by decide) (by decide)

/-- C3 counterexample: loading the raw record `rBad`, whose `group` value
`N/A` is outside the 8-label domain, does not fail and does not reject the
row: the row is kept with the silently coerced missing group, appears in
no bucket of the count table, yet is still counted by the up statistic. -/
theorem c3_out_of_domain_group_silently_coerced :
    loadRow rBad = ⟨0, 2, none, []⟩ ∧
      (day_counts_detail [loadRow rBad]).map Prod.snd = [0, 0, 0, 0, 0, 0, 0, 0] ∧
      total_up [loadRow rBad] = 1 := by decide

/-- C3 (amended): loading never fails on an out-of-domain `group` value:
`pd.Categorical` silently coerces it to the missing value, such a row is
excluded from every bucket count but still counted by the scalar
statistics, and the fixed 8-label ordering of the count table is
preserved. -/
theorem c3_out_of_domain_group_behavior (rr : RawRow) (rows : List Row)
    (h : rr.group ∉ LABELS) :
    (loadRow rr).group = none
    ∧ day_counts_detail (loadRow rr :: rows) = day_counts_detail rows
    ∧ (day_counts_detail (loadRow rr :: rows)).map Prod.fst = ORDER_LIST
    ∧ total_up (loadRow rr :: rows) = total_up rows + (if 0 < rr.pct_chg then 1 else 0) := by
  have hg : (loadRow rr).group = none := toBucket_eq_none_of_not_mem rr.group h
  refine ⟨hg, day_counts_detail_cons_of_group_none _ _ hg, ?_, ?_⟩
  · rw [day_counts_detail_cons_of_group_none _ _ hg]
    unfold day_counts_detail
    rw [List.map_map]
    refine (List.map_congr_left ?_).trans (List.map_id ORDER_LIST)
    intro b _
    rfl
  · unfold total_up
    rw [List.countP_cons]
    simp [loadRow]

/-- C3 witness: the amended theorem applied to the concrete raw record
`rBad` and the one-row table `[rowA0]`. -/
theorem c3_out_of_domain_group_behavior_witness :
    (loadRow rBad).group = none
    ∧ day_counts_detail (loadRow rBad :: [rowA0]) = day_counts_detail [rowA0]
    ∧ (day_counts_detail (loadRow rBad :: [rowA0])).map Prod.fst = ORDER_LIST
    ∧ total_up (loadRow rBad :: [rowA0]) = total_up [rowA0] + (if 0 < rBad.pct_chg then 1 else 0) :=
  c3_out_of_domain_group_behavior rBad [rowA0] (by decide)

/-- C4: in every successfully built daily-metrics frame, the `cum_net`
column is exactly the spec's running total of the `net` column — the
prefix sum in ascending date order over the in-range dates only,
restarting from zero at the start of the range (its first entry equals the
first date's own `net`, which also settles the single-date range). -/
theorem c4_cum_net_is_running_total (t : Table) (s e : Nat) (m : DailyMetrics)
    (h : daily_metrics t s e = MetricsResult.ok m) :
    m.cum_net = specRunningTotals m.net ∧ m.cum_net.head? = m.net.head? := by
  unfold daily_metrics at h
  by_cases he : (applyRecs t s e).isEmpty
  · rw [if_pos he] at h
    simp at h
  · rw [if_neg he] at h
    injection h with h2
    subst h2
    exact ⟨cumsum_eq_specRunningTotals _, cumsum_head _⟩

/-- C4 witness: the theorem applied to the concrete table `tAB` over the
range `[0, 1]`, whose daily-metrics frame is `mW`. -/
theorem c4_cum_net_is_running_total_witness :
    mW.cum_net = specRunningTotals mW.net ∧ mW.cum_net.head? = mW.net.head? :=
  c4_cum_net_is_running_total tAB 0 1 mW (by decide)

/-- C5 counterexample: on the concrete table `tAB` with trend range
`[1, 1]`, date 0 has zero matching rows, yet the day section renders a
chart built from the empty row set (all 8 buckets at count 0, statistics
all 0) — not a warning. -/
theorem c5_empty_day_renders_chart :
    daySection tAB 1 1 0 ALL_OPTION =
      DayResult.ok (DayRender.chart (ORDER_LIST.map (fun b => (b, 0))) 0 0 0 0) := by decide

/-- C5 (amended): when the selected day matches zero rows the day section
has no emptiness check and no warning branch: it renders the chart of the
empty row set, i.e. all 8 fixed buckets with count 0 and all four
statistics 0. -/
theorem c5_empty_day_chart_of_zeros (t : Table) (s e D : Nat) (h : day_rows t s e D = []) :
    daySection t s e D ALL_OPTION =
      DayResult.ok (DayRender.chart (ORDER_LIST.map (fun b => (b, 0))) 0 0 0 0) := by
  unfold daySection day_raw
  rw [if_pos rfl, h]
  rfl

/-- C5 witness: the amended theorem applied to the concrete table `tAB`,
trend range `[1, 1]` and day 0. -/
theorem c5_empty_day_chart_of_zeros_witness :
    daySection tAB 1 1 0 ALL_OPTION =
      DayResult.ok (DayRender.chart (ORDER_LIST.map (fun b => (b, 0))) 0 0 0 0) :=
  c5_empty_day_chart_of_zeros tAB 1 1 0 (by decide)

/-- C6 counterexample: a malformed input file does not end the session the
same way as a missing one. -/
theorem c6_malformed_differs_from_missing :
    sessionStart FileState.malformed ≠ sessionStart FileState.missing := by decide

/-- C6 (amended): `load_data` catches only `FileNotFoundError`, so only a
missing file reaches the defined halt-with-message path (`st.error` +
`st.stop`); a present-but-malformed file raises an exception that
propagates uncaught and aborts the script by a different path. -/
theorem c6_malformed_file_crashes_uncaught :
    load_data FileState.malformed = LoadResult.parseExn
    ∧ sessionStart FileState.malformed = SessionOutcome.crashUncaught
    ∧ sessionStart FileState.missing = SessionOutcome.haltWithMessage := by decide

/-- C7: evaluating the trend aggregators of the concrete table `tAB` at the
reversed range `[1, 0]` (start after end), which selects zero rows: the
bucket-count table is indeed empty, but `daily_metrics` does not return an
empty frame — the empty groupby-apply yields a frame without the `up`
column, so the derivation of `net` raises `KeyError`. -/
theorem c7_empty_range_raises_key_error :
    filtered_raw tAB 1 0 = [] ∧ daily_counts tAB 1 0 = []
    ∧ daily_metrics tAB 1 0 = MetricsResult.keyError UP_COL := by decide

/-- C8: `limit_up_count` counts exactly the rows with `pct_chg` strictly
above 9.8 and `limit_down_count` exactly the rows strictly below -9.8;
adding a row sitting exactly on either threshold changes neither count. -/
theorem c8_limit_thresholds_strict (rows : List Row) (d : Nat) (g : Option Bucket)
    (fl : List (String × Bool)) :
    limit_up_count rows = (rows.filter (fun x => decide (mkRat 49 5 < x.pct_chg))).length
    ∧ limit_down_count rows = (rows.filter (fun x => decide (x.pct_chg < -mkRat 49 5))).length
    ∧ limit_up_count ((⟨d, mkRat 49 5, g, fl⟩ : Row) :: rows) = limit_up_count rows
    ∧ limit_down_count ((⟨d, -mkRat 49 5, g, fl⟩ : Row) :: rows) = limit_down_count rows := by
  refine ⟨List.countP_eq_length_filter _ _, List.countP_eq_length_filter _ _, ?_, ?_⟩
  · unfold limit_up_count
    rw [List.countP_cons]
    simp
  · unfold limit_down_count
    rw [List.countP_cons]
    simp

/-- C9: for every row set, the single-day count table lists exactly the 8
fixed bucket labels, in the fixed order, each paired with the number of
rows carrying that bucket (0 when none do). -/
theorem c9_day_counts_full_ordered_domain (rows : List Row) :
    day_counts_detail rows
      = ORDER_LIST.map (fun b => (b, rows.countP (fun r => decide (r.group = some b))))
    ∧ (day_counts_detail rows).map Prod.fst = ORDER_LIST := by
  have h1 : day_counts_detail rows
      = ORDER_LIST.map (fun b => (b, rows.countP (fun r => decide (r.group = some b)))) := by
    unfold day_counts_detail value_counts
    refine List.map_congr_left ?_
    intro b _
    rw [lookup_table_map]
    by_cases h : b ∈ observedBuckets rows
    · rw [if_pos h]
      rfl
    · rw [if_neg h]
      simp [countP_group_eq_zero rows b h]
  refine ⟨h1, ?_⟩
  rw [h1, List.map_map]
  refine (List.map_congr_left ?_).trans (List.map_id ORDER_LIST)
  intro b _
  rfl

/-- C10: every row strictly above the 9.8 limit-up threshold is strictly
positive and every row strictly below -9.8 is strictly negative, so the
limit counts are bounded by the up/down counts. -/
theorem c10_limit_counts_bounded_by_updown (rows : List Row) :
    limit_up_count rows ≤ total_up rows ∧ limit_down_count rows ≤ total_down rows := by
  constructor
  · unfold limit_up_count total_up
    refine List.countP_mono_left ?_
    intro r _ h
    simp only [decide_eq_true_eq] at h ⊢
    exact lt_trans (by decide) h
  · unfold limit_down_count total_down
    refine List.countP_mono_left ?_
    intro r _ h
    simp only [decide_eq_true_eq] at h ⊢
    exact lt_trans h (by decide)
